import Mathlib

/-!
Shallow embedding of the adaptive-difficulty decision logic of
`src/learning_coach_agent/agent.py`: the response classifier
`analyze_student_response` and the strategy selector
`determine_next_learning_action`, together with theorems settling the
specified properties of those two functions.

Python dicts with a fixed key set are modelled as Lean structures; a key
that some code path leaves absent is modelled as an `Option` field holding
`none`.  Python float arithmetic on `success_rate` is modelled over `ℚ`
(the thresholds 0.8 and 0.5 and the ratios correct/total are exact
rationals for all realistic bounded histories).
-/

namespace LearningCoach

/-- The analysis record built by `analyze_student_response`
(agent.py lines 244-285).  Keys that only some branch adds are `Option`
fields, `none` meaning the key is absent from the dict. -/
structure Analysis where
  is_correct : Option Bool
  understanding_level : String
  specific_issues : List String
  recommendations : List String
  encouragement : String
  requires_llm_evaluation : Option Bool
  student_answer : Option String
  expected_answer : Option String
  evaluation_criteria : List String
  note : Option String
deriving DecidableEq, Repr

/-- The initial `analysis` dict of `analyze_student_response`
(agent.py lines 244-250). -/
def baseAnalysis : Analysis :=
  { is_correct := some false
    understanding_level := "needs_improvement"
    specific_issues := []
    recommendations := []
    encouragement := ""
    requires_llm_evaluation := none
    student_answer := none
    expected_answer := none
    evaluation_criteria := []
    note := none }

/-- Python `str.strip()`: drop whitespace from both ends of the string
(ASCII whitespace; the exotic Unicode spaces Python also strips play no
role in any claim). -/
def pyStrip (s : String) : String :=
  ⟨((s.data.dropWhile Char.isWhitespace).reverse.dropWhile Char.isWhitespace).reverse⟩

/-- Python `str.upper()` (ASCII case mapping; the answer keys at issue are
ASCII). -/
def pyUpper (s : String) : String :=
  ⟨s.data.map Char.toUpper⟩

/-- `analyze_student_response` (agent.py lines 232-285). -/
def analyze_student_response (user_answer : String) (correct_answer : String)
    (question_type : String) : Analysis :=
  let analysis := baseAnalysis
  if question_type = "multiple_choice" then
    if pyUpper (pyStrip user_answer) = pyUpper (pyStrip correct_answer) then
      { analysis with
          is_correct := some true
          understanding_level := "good"
          encouragement := "Excellent! You got it right!"
          recommendations := ["Continue to the next concept",
                              "Try a slightly harder question"] }
    else
      { analysis with
          is_correct := some false
          understanding_level := "needs_review"
          specific_issues := ["Incorrect answer selected"]
          encouragement :=
            "Don\x27t worry! This is a tricky concept. Let\x27s try a different approach."
          recommendations := ["Try a different analogy",
                              "Simplify the explanation",
                              "Use more visual examples"] }
  else if question_type = "open_ended" then
    { analysis with
        requires_llm_evaluation := some true
        student_answer := some user_answer
        expected_answer := some correct_answer
        evaluation_criteria :=
          ["Does the answer demonstrate understanding of core concepts?",
           "Are key ideas expressed in the student\x27s own words?",
           "Is the explanation logical and coherent?",
           "What specific concepts are missing or incorrect?"]
        encouragement := "Let me evaluate your answer..."
        note := some
          "LLM should analyze this response semantically and provide detailed feedback" }
  else
    analysis

/-- The action dict returned by `determine_next_learning_action`
(agent.py lines 299-356).  The nested `agent_instructions` dict is
flattened; it is absent on the `start` branch, so its three entries are
`Option` fields. -/
structure Action where
  action : String
  reason : String
  next_steps : List String
  complexity_adjustment : Option String
  teaching_approach : Option String
  analogy_level : Option String
deriving DecidableEq, Repr

/-- The dict returned for an empty history (agent.py lines 300-304). -/
def startAction : Action :=
  { action := "start"
    reason := "Beginning new learning session"
    next_steps := ["Analyze learning style", "Provide initial explanation"]
    complexity_adjustment := none
    teaching_approach := none
    analogy_level := none }

/-- The dict returned when `success_rate >= 0.8` (agent.py lines 312-325). -/
def advanceAction : Action :=
  { action := "advance"
    reason := "Student shows strong understanding"
    next_steps := ["Introduce more advanced concepts",
                   "Explore practical applications",
                   "Challenge with harder questions"]
    complexity_adjustment := some "increase"
    teaching_approach := some "advanced_concepts"
    analogy_level := some "sophisticated" }

/-- The dict returned when `0.5 <= success_rate < 0.8`
(agent.py lines 327-340). -/
def reinforceAction : Action :=
  { action := "reinforce"
    reason := "Student has partial understanding, needs reinforcement"
    next_steps := ["Review key concepts with different examples",
                   "Try alternative analogies",
                   "Practice with similar difficulty questions"]
    complexity_adjustment := some "maintain"
    teaching_approach := some "alternative_explanations"
    analogy_level := some "varied" }

/-- The dict returned when `success_rate < 0.5` (agent.py lines 342-356). -/
def simplifyAction : Action :=
  { action := "simplify"
    reason := "Student is struggling, need to simplify approach"
    next_steps := ["Break concepts into smaller parts",
                   "Use much simpler analogies",
                   "Start with more basic questions",
                   "Provide more encouragement and support"]
    complexity_adjustment := some "decrease"
    teaching_approach := some "simplified_explanations"
    analogy_level := some "very_simple" }

/-- `sum(1 for result in analysis_results if result.get("is_correct", False))`
(agent.py line 306): a record whose `is_correct` key is absent counts as
incorrect via the `.get` default. -/
def correctAnswers (analysis_results : List Analysis) : Nat :=
  analysis_results.countP (fun result => result.is_correct.getD false)

/-- `success_rate = correct_answers / total_questions if total_questions > 0
else 0` (agent.py line 308), over `ℚ`. -/
def successRate (analysis_results : List Analysis) : ℚ :=
  if analysis_results.length > 0 then
    (correctAnswers analysis_results : ℚ) / (analysis_results.length : ℚ)
  else 0

/-- `determine_next_learning_action` (agent.py lines 287-356).
`session_context` is accepted (at any type) and never read, exactly as in
the source. -/
def determine_next_learning_action {α : Type} (analysis_results : List Analysis)
    (session_context : α) : Action :=
  if analysis_results.isEmpty then startAction
  else
    let success_rate := successRate analysis_results
    if success_rate ≥ 0.8 then advanceAction
    else if success_rate ≥ 0.5 then reinforceAction
    else simplifyAction

/-- Modelled from the spec: the "exact case-insensitive match between the
answer of the learner and the canonical key" of spec §4.2, with no other
normalisation.  Used only to compare the matching rule of the spec with
that of the source (which also strips surrounding whitespace). -/
def specCaseInsensitiveMatch (user_answer : String) (correct_answer : String) : Bool :=
  pyUpper user_answer == pyUpper correct_answer

/-- An analysis record whose `is_correct` key is absent, as a claim about
unset fields requires. -/
def unsetRecord : Analysis := { baseAnalysis with is_correct := none }

/-- A record as produced for a correctly answered multiple-choice question. -/
def correctRecord : Analysis := analyze_student_response "b" "B" "multiple_choice"

/-- A record as produced for an incorrectly answered multiple-choice question. -/
def wrongRecord : Analysis := analyze_student_response "c" "B" "multiple_choice"

/-- Helper: on a non-empty history the selector returns one of the three
performance-band actions. -/
theorem determine_cases {α : Type} (rs : List Analysis) (s : α) (hne : rs ≠ []) :
    determine_next_learning_action rs s = advanceAction ∨
    determine_next_learning_action rs s = reinforceAction ∨
    determine_next_learning_action rs s = simplifyAction := by
  obtain ⟨a, t, rfl⟩ := List.exists_cons_of_ne_nil hne
  simp only [determine_next_learning_action, List.isEmpty_cons, Bool.false_eq_true,
    if_false]
  split
  · exact Or.inl rfl
  · split
    · exact Or.inr (Or.inl rfl)
    · exact Or.inr (Or.inr rfl)

/-- C1: on every non-empty history whose success rate is at least 0.8
(the boundary 0.8 included), determine_next_learning_action returns the
advance action, whose complexity_adjustment is "increase". -/
theorem c1_high_success_rate_advances {α : Type} (analysis_results : List Analysis)
    (session_context : α) (hne : analysis_results ≠ [])
    (hrate : successRate analysis_results ≥ 0.8) :
    determine_next_learning_action analysis_results session_context = advanceAction ∧
    (determine_next_learning_action analysis_results session_context).complexity_adjustment
      = some "increase" := by
  obtain ⟨a, t, rfl⟩ := List.exists_cons_of_ne_nil hne
  have h : determine_next_learning_action (a :: t) session_context = advanceAction := by
    simp [determine_next_learning_action, hrate]
  exact ⟨h, by rw [h]; rfl⟩

/-- Helper: the one-record all-correct history has success rate 1. -/
lemma successRate_single_correct : successRate [correctRecord] = 1 := by
  have h : correctAnswers [correctRecord] = 1 := by decide
  norm_num [successRate, h]

/-- Helper: success rate 1 clears the advance threshold. -/
lemma rate_single_correct_ge : successRate [correctRecord] ≥ 0.8 := by
  rw [successRate_single_correct]; norm_num

/-- C1 witness: the one-record all-correct history has success rate 1 ≥ 0.8
and is classified as advance. -/
theorem c1_witness :
    ([correctRecord] : List Analysis) ≠ [] ∧
    successRate [correctRecord] ≥ 0.8 ∧
    (determine_next_learning_action [correctRecord] () = advanceAction ∧
     (determine_next_learning_action [correctRecord] ()).complexity_adjustment
       = some "increase") :=
  ⟨by decide, rate_single_correct_ge,
   c1_high_success_rate_advances [correctRecord] () (by decide) rate_single_correct_ge⟩

/-- C2: on every non-empty history whose success rate lies in [0.5, 0.8)
(the boundary 0.5 included), determine_next_learning_action returns the
reinforce action, whose complexity_adjustment is "maintain". -/
theorem c2_mid_success_rate_reinforces {α : Type} (analysis_results : List Analysis)
    (session_context : α) (hne : analysis_results ≠ [])
    (hlo : successRate analysis_results ≥ 0.5)
    (hhi : successRate analysis_results < 0.8) :
    determine_next_learning_action analysis_results session_context = reinforceAction ∧
    (determine_next_learning_action analysis_results session_context).complexity_adjustment
      = some "maintain" := by
  obtain ⟨a, t, rfl⟩ := List.exists_cons_of_ne_nil hne
  have h1 : ¬ (successRate (a :: t) ≥ 0.8) := not_le.mpr hhi
  have h : determine_next_learning_action (a :: t) session_context = reinforceAction := by
    simp [determine_next_learning_action, h1, hlo]
  exact ⟨h, by rw [h]; rfl⟩

/-- Helper: the [true, true, true, false] history of the end-to-end scenario
has success rate 3/4 = 0.75. -/
lemma successRate_three_of_four :
    successRate [correctRecord, correctRecord, correctRecord, wrongRecord] = 3 / 4 := by
  have h : correctAnswers [correctRecord, correctRecord, correctRecord, wrongRecord] = 3 := by
    decide
  norm_num [successRate, h]

/-- Helper: success rate 3/4 clears the reinforce lower bound. -/
lemma rate_three_of_four_lo :
    successRate [correctRecord, correctRecord, correctRecord, wrongRecord] ≥ 0.5 := by
  rw [successRate_three_of_four]; norm_num

/-- Helper: success rate 3/4 stays below the advance threshold. -/
lemma rate_three_of_four_hi :
    successRate [correctRecord, correctRecord, correctRecord, wrongRecord] < 0.8 := by
  rw [successRate_three_of_four]; norm_num

/-- C2 witness: the four-record history with correctness
[true, true, true, false] has success rate 0.75 and is classified as
reinforce, the end-to-end scenario of the claim. -/
theorem c2_witness :
    ([correctRecord, correctRecord, correctRecord, wrongRecord] : List Analysis) ≠ [] ∧
    successRate [correctRecord, correctRecord, correctRecord, wrongRecord] ≥ 0.5 ∧
    successRate [correctRecord, correctRecord, correctRecord, wrongRecord] < 0.8 ∧
    (determine_next_learning_action
        [correctRecord, correctRecord, correctRecord, wrongRecord] () = reinforceAction ∧
     (determine_next_learning_action
        [correctRecord, correctRecord, correctRecord, wrongRecord] ()).complexity_adjustment
       = some "maintain") :=
  ⟨by decide, rate_three_of_four_lo, rate_three_of_four_hi,
   c2_mid_success_rate_reinforces [correctRecord, correctRecord, correctRecord, wrongRecord]
     () (by decide) rate_three_of_four_lo rate_three_of_four_hi⟩

/-- C3: on every non-empty history whose success rate is below 0.5,
determine_next_learning_action returns the simplify action, whose
complexity_adjustment is "decrease". -/
theorem c3_low_success_rate_simplifies {α : Type} (analysis_results : List Analysis)
    (session_context : α) (hne : analysis_results ≠ [])
    (hrate : successRate analysis_results < 0.5) :
    determine_next_learning_action analysis_results session_context = simplifyAction ∧
    (determine_next_learning_action analysis_results session_context).complexity_adjustment
      = some "decrease" := by
  obtain ⟨a, t, rfl⟩ := List.exists_cons_of_ne_nil hne
  have h1 : ¬ (successRate (a :: t) ≥ 0.8) := not_le.mpr (hrate.trans (by norm_num))
  have h2 : ¬ (successRate (a :: t) ≥ 0.5) := not_le.mpr hrate
  have h : determine_next_learning_action (a :: t) session_context = simplifyAction := by
    simp [determine_next_learning_action, h1, h2]
  exact ⟨h, by rw [h]; rfl⟩

/-- Helper: the one-record all-incorrect history has success rate 0. -/
lemma successRate_single_wrong : successRate [wrongRecord] = 0 := by
  have h : correctAnswers [wrongRecord] = 0 := by decide
  norm_num [successRate, h]

/-- Helper: success rate 0 is below the reinforce lower bound. -/
lemma rate_single_wrong_lt : successRate [wrongRecord] < 0.5 := by
  rw [successRate_single_wrong]; norm_num

/-- C3 witness: the one-record all-incorrect history has success rate
0 < 0.5 and is classified as simplify. -/
theorem c3_witness :
    ([wrongRecord] : List Analysis) ≠ [] ∧
    successRate [wrongRecord] < 0.5 ∧
    (determine_next_learning_action [wrongRecord] () = simplifyAction ∧
     (determine_next_learning_action [wrongRecord] ()).complexity_adjustment
       = some "decrease") :=
  ⟨by decide, rate_single_wrong_lt,
   c3_low_success_rate_simplifies [wrongRecord] () (by decide) rate_single_wrong_lt⟩

/-- C4: on the empty history determine_next_learning_action returns the
start action for every session_context (of any type), and a history is
empty exactly when the returned action has kind "start". -/
theorem c4_start_iff_empty {α : Type} (analysis_results : List Analysis)
    (session_context : α) :
    determine_next_learning_action ([] : List Analysis) session_context = startAction ∧
    ((determine_next_learning_action analysis_results session_context).action = "start"
      ↔ analysis_results = []) := by
  constructor
  · rfl
  · constructor
    · intro hstart
      by_contra hne
      rcases determine_cases analysis_results session_context hne with h | h | h <;>
        rw [h] at hstart <;> exact absurd hstart (by decide)
    · rintro rfl
      rfl

/-- C5: determine_next_learning_action is a pure function of its two
arguments; equal histories and equal session contexts give equal actions.
The source body reads no clock, randomness source or global state. -/
theorem c5_deterministic {α : Type} (results₁ results₂ : List Analysis)
    (session₁ session₂ : α) (hh : results₁ = results₂) (hs : session₁ = session₂) :
    determine_next_learning_action results₁ session₁ =
      determine_next_learning_action results₂ session₂ := by
  rw [hh, hs]

/-- C5 witness: two calls on the identical concrete input coincide. -/
theorem c5_witness :
    ([correctRecord] : List Analysis) = [correctRecord] ∧ (() : Unit) = () ∧
    determine_next_learning_action [correctRecord] () =
      determine_next_learning_action [correctRecord] () :=
  ⟨rfl, rfl, c5_deterministic [correctRecord] [correctRecord] () () rfl rfl⟩

/-- C6 counterexample: a history containing a record whose is_correct key is
absent does not make the function fail.  There is no validation step: the
source reads the key with a get-with-default (agent.py line 306), counts
the record as incorrect, computes the success rate, and returns the
ordinary simplify action; no InvalidInput condition exists anywhere in the
function, and the confidence field is never read. -/
theorem c6_counterexample :
    unsetRecord.is_correct = none ∧
    determine_next_learning_action [unsetRecord] () = simplifyAction := by
  have h : correctAnswers [unsetRecord] = 0 := by decide
  have h0 : successRate [unsetRecord] = 0 := by norm_num [successRate, h]
  refine ⟨rfl, ?_⟩
  norm_num [determine_next_learning_action, h0]

/-- C6 amended: a record whose is_correct key is unset is silently counted
as incorrect — the decision on any history containing it equals the
decision on the same history with that record marked is_correct = false —
and the function returns normally instead of failing. -/
theorem c6_unset_counts_as_incorrect {α : Type} (r : Analysis) (rest : List Analysis)
    (session_context : α) (hr : r.is_correct = none) :
    determine_next_learning_action (r :: rest) session_context =
      determine_next_learning_action
        ({ r with is_correct := some false } :: rest) session_context := by
  have hcount : correctAnswers (r :: rest)
      = correctAnswers ({ r with is_correct := some false } :: rest) := by
    simp [correctAnswers, List.countP_cons, hr]
  simp [determine_next_learning_action, successRate, hcount]

/-- C6 witness: the unset-field record behaves exactly like one marked
incorrect. -/
theorem c6_witness :
    unsetRecord.is_correct = none ∧
    determine_next_learning_action [unsetRecord] () =
      determine_next_learning_action [{ unsetRecord with is_correct := some false }] () :=
  ⟨rfl, c6_unset_counts_as_incorrect unsetRecord [] () rfl⟩

/-- C7 counterexample: the source strips surrounding whitespace before
comparing, so with answer " b" against key "B" it marks the response
correct although " b" does not match "B" under the pure case-insensitive
rule the claim states. -/
theorem c7_counterexample :
    (analyze_student_response " b" "B" "multiple_choice").is_correct = some true ∧
    specCaseInsensitiveMatch " b" "B" = false := by
  constructor <;> decide

/-- C7 amended: for multiple-choice questions the classifier marks the
answer correct exactly when answer and key match case-insensitively after
stripping leading and trailing whitespace (no partial credit); in
particular "b" against "B" is correct and "c" against "B" is not. -/
theorem c7_mc_correct_iff_strip_case_match :
    (∀ (user_answer correct_answer : String),
      (analyze_student_response user_answer correct_answer "multiple_choice").is_correct
        = some (pyUpper (pyStrip user_answer) == pyUpper (pyStrip correct_answer))) ∧
    (analyze_student_response "b" "B" "multiple_choice").is_correct = some true ∧
    (analyze_student_response "c" "B" "multiple_choice").is_correct = some false := by
  refine ⟨?_, by decide, by decide⟩
  intro ua ca
  by_cases h : pyUpper (pyStrip ua) = pyUpper (pyStrip ca)
  · simp [analyze_student_response, h]
  · simp [analyze_student_response, h]

/-- C8 counterexample: an open-ended answer that contains every key term of
the expected answer (here it is verbatim the expected answer) is still
returned with is_correct = false and the initial understanding_level; no
key-term counting or confidence banding exists in the source, which
instead flags the record for LLM evaluation. -/
theorem c8_counterexample :
    (analyze_student_response
        "gravity is the force by which a planet pulls objects toward its center"
        "gravity is the force by which a planet pulls objects toward its center"
        "open_ended").is_correct = some false ∧
    (analyze_student_response
        "gravity is the force by which a planet pulls objects toward its center"
        "gravity is the force by which a planet pulls objects toward its center"
        "open_ended").requires_llm_evaluation = some true := by
  constructor <;> rfl

/-- C8 amended: for every open-ended question the classifier performs no
key-term analysis: it returns is_correct = false, leaves
understanding_level at its initial "needs_improvement", and sets
requires_llm_evaluation = true, deferring semantic evaluation to the LLM. -/
theorem c8_open_ended_defers_to_llm (user_answer correct_answer : String) :
    (analyze_student_response user_answer correct_answer "open_ended").is_correct
      = some false ∧
    (analyze_student_response user_answer correct_answer "open_ended").requires_llm_evaluation
      = some true ∧
    (analyze_student_response user_answer correct_answer "open_ended").understanding_level
      = "needs_improvement" :=
  ⟨rfl, rfl, rfl⟩

/-- C9: on every non-empty history the selector returns normally (it is a
total function; the rate division is guarded by a positive length) and the
result is exactly one of the three pairwise-distinct band actions advance,
reinforce, simplify. -/
theorem c9_nonempty_total_one_branch {α : Type} (analysis_results : List Analysis)
    (session_context : α) (hne : analysis_results ≠ []) :
    (determine_next_learning_action analysis_results session_context = advanceAction ∨
     determine_next_learning_action analysis_results session_context = reinforceAction ∨
     determine_next_learning_action analysis_results session_context = simplifyAction) ∧
    advanceAction ≠ reinforceAction ∧
    advanceAction ≠ simplifyAction ∧
    reinforceAction ≠ simplifyAction ∧
    0 < analysis_results.length :=
  ⟨determine_cases analysis_results session_context hne, by decide, by decide, by decide,
   List.length_pos.mpr hne⟩

/-- C9 witness: instantiated on the one-record all-incorrect history. -/
theorem c9_witness :
    ([wrongRecord] : List Analysis) ≠ [] ∧
    ((determine_next_learning_action [wrongRecord] () = advanceAction ∨
      determine_next_learning_action [wrongRecord] () = reinforceAction ∨
      determine_next_learning_action [wrongRecord] () = simplifyAction) ∧
     advanceAction ≠ reinforceAction ∧
     advanceAction ≠ simplifyAction ∧
     reinforceAction ≠ simplifyAction ∧
     0 < ([wrongRecord] : List Analysis).length) :=
  ⟨by decide, c9_nonempty_total_one_branch [wrongRecord] () (by decide)⟩

/-- C10: the classifier returns is_correct = false for every open-ended
question, so an open-ended record contributes nothing to the
correct-answer count of the success-rate computation in
determine_next_learning_action. -/
theorem c10_open_ended_counts_incorrect (user_answer correct_answer : String)
    (rest : List Analysis) :
    (analyze_student_response user_answer correct_answer "open_ended").is_correct
      = some false ∧
    correctAnswers (analyze_student_response user_answer correct_answer "open_ended" :: rest)
      = correctAnswers rest := by
  refine ⟨rfl, ?_⟩
  have h : ((analyze_student_response user_answer correct_answer "open_ended").is_correct.getD
      false) = false := rfl
  simp [correctAnswers, List.countP_cons, h]

end LearningCoach
